import Mathlib

/-!
Password lock firmware (`app/src/main.c`).

A shallow embedding of the control loop of `main.c`: four push buttons are
sampled once per tick, a two-state machine (`STATE_LOCKED`, `STATE_WAITING`)
collects up to `PASSWORD_LENGTH` digits and compares them with
`correct_password` when button 3 is pressed.

The C globals become the fields of `Sys`.  The GPIO output pin `led0` is a
boolean field (its logical level), and every `printk` / `gpio_pin_set_dt`
call is recorded, in program order, in the field `trace`.  One iteration of
the `while(1)` body is `loop_body`; `k_msleep` has no effect on the state and
is not modelled.  The values returned by `gpio_pin_get_dt` are C `int`s and
are kept as `Int` (the code compares them with `0 < x` and `x == 0`).
-/

namespace EieNrf52840

/-! ## Data model -/

/-- The macro `SLEEP_TIME_MS` (line 11), the sleep per iteration in ms. -/
abbrev SLEEP_TIME_MS : Nat := 50

/-- The macro `PASSWORD_LENGTH` (line 26). -/
abbrev PASSWORD_LENGTH : Nat := 4

/-- The type of `uint8_t x[PASSWORD_LENGTH]`: one byte (as a `Nat`) per slot. -/
abbrev Buffer := Fin PASSWORD_LENGTH → Nat

/-- The constant `correct_password[PASSWORD_LENGTH] = {0, 0, 0, 0}` (line 27). -/
def correct_password : Buffer := ![0, 0, 0, 0]

/-- The enum `system_state_t` (lines 30-33). -/
inductive system_state_t where
  | STATE_LOCKED
  | STATE_WAITING
  deriving DecidableEq, Repr

open system_state_t

/-- The messages the program passes to `printk`. -/
inductive Msg where
  | started
  | banner
  | entered_btn0
  | entered_btn1
  | entered_btn2
  | correct
  | incorrect
  | resetting
  deriving DecidableEq, Repr

/-- The text of each `printk` message, as written in the source. -/
def Msg.text : Msg → String
  | .started => "Password system started\n"
  | .banner => "Correct password: BTN1, BTN1, BTN1, BTN1\n"
  | .entered_btn0 => "Entered: BTN0\n"
  | .entered_btn1 => "Entered: BTN1\n"
  | .entered_btn2 => "Entered: BTN2\n"
  | .correct => "Correct!\n"
  | .incorrect => "Incorrect!\n"
  | .resetting => "Resetting to locked state\n"

/-- An externally visible action of the program. -/
inductive Event where
  | printk (m : Msg)
  | gpio_pin_set_led0 (value : Int)
  deriving DecidableEq, Repr

/-- The global variables of `main.c`, the logical level of the `led0` pin and
the record of the output calls made so far. -/
structure Sys where
  current_state : system_state_t
  password_buffer : Buffer
  password_index : Nat
  btn0_was_pressed : Bool
  btn1_was_pressed : Bool
  btn2_was_pressed : Bool
  btn3_was_pressed : Bool
  led0 : Bool
  trace : List Event

/-- The four values read by `gpio_pin_get_dt` at the top of one iteration. -/
structure Inputs where
  btn0_state : Int
  btn1_state : Int
  btn2_state : Int
  btn3_state : Int

/-- The `int` value that `gpio_pin_get_dt` returns for a logical level. -/
def level_int (pressed : Bool) : Int := if pressed then 1 else 0

/-- The readings of one tick in which the buttons have the given levels. -/
def levels (l0 l1 l2 l3 : Bool) : Inputs :=
  { btn0_state := level_int l0, btn1_state := level_int l1,
    btn2_state := level_int l2, btn3_state := level_int l3 }

/-! ## Operations -/

/-- The call `printk(...)`: append the message to the trace. -/
def printk (m : Msg) (s : Sys) : Sys :=
  { s with trace := s.trace ++ [Event.printk m] }

/-- The call `gpio_pin_set_dt(&led0, value)`: the pin is active iff `value` is
non-zero. -/
def gpio_pin_set_dt_led0 (value : Int) (s : Sys) : Sys :=
  { s with led0 := decide (value ≠ 0),
           trace := s.trace ++ [Event.gpio_pin_set_led0 value] }

/-- The function `reset_password_entry` (lines 45-50): index to 0, then the `for` loop
writes `0xFF` into slots `0 .. PASSWORD_LENGTH-1` in order. -/
def reset_password_entry (s : Sys) : Sys :=
  { s with
    password_index := 0,
    password_buffer :=
      (List.finRange PASSWORD_LENGTH).foldl
        (fun buf i => Function.update buf i 0xFF) s.password_buffer }

/-- The `for` loop of `check_password` (lines 57-62) over the remaining
indices: the first mismatch returns `false`, running off the end returns
`true`. -/
def check_password_loop (buf : Buffer) : List (Fin PASSWORD_LENGTH) → Bool
  | [] => true
  | i :: rest =>
    if buf i ≠ correct_password i then false else check_password_loop buf rest

/-- The function `check_password` (lines 52-63). -/
def check_password (s : Sys) : Bool :=
  if s.password_index ≠ PASSWORD_LENGTH then false
  else check_password_loop s.password_buffer (List.finRange PASSWORD_LENGTH)

/-- Lines 119-129: the `BTN0` block of the `STATE_LOCKED` branch. -/
def locked_btn0 (btn0_state : Int) (s : Sys) : Sys :=
  if 0 < btn0_state then
    if h : s.btn0_was_pressed = false ∧ s.password_index < PASSWORD_LENGTH then
      { printk Msg.entered_btn0
          { s with
            password_buffer :=
              Function.update s.password_buffer ⟨s.password_index, h.2⟩ 0,
            password_index := (s.password_index + 1) % 256 } with
        btn0_was_pressed := true }
    else s
  else { s with btn0_was_pressed := false }

/-- Lines 131-141: the `BTN1` block of the `STATE_LOCKED` branch. -/
def locked_btn1 (btn1_state : Int) (s : Sys) : Sys :=
  if 0 < btn1_state then
    if h : s.btn1_was_pressed = false ∧ s.password_index < PASSWORD_LENGTH then
      { printk Msg.entered_btn1
          { s with
            password_buffer :=
              Function.update s.password_buffer ⟨s.password_index, h.2⟩ 1,
            password_index := (s.password_index + 1) % 256 } with
        btn1_was_pressed := true }
    else s
  else { s with btn1_was_pressed := false }

/-- Lines 143-153: the `BTN2` block of the `STATE_LOCKED` branch. -/
def locked_btn2 (btn2_state : Int) (s : Sys) : Sys :=
  if 0 < btn2_state then
    if h : s.btn2_was_pressed = false ∧ s.password_index < PASSWORD_LENGTH then
      { printk Msg.entered_btn2
          { s with
            password_buffer :=
              Function.update s.password_buffer ⟨s.password_index, h.2⟩ 2,
            password_index := (s.password_index + 1) % 256 } with
        btn2_was_pressed := true }
    else s
  else { s with btn2_was_pressed := false }

/-- Lines 155-171: the `BTN3` (enter) block of the `STATE_LOCKED` branch. -/
def locked_btn3 (btn3_state : Int) (s : Sys) : Sys :=
  if 0 < btn3_state then
    if s.btn3_was_pressed = false then
      let s1 := if check_password s then printk Msg.correct s
                else printk Msg.incorrect s
      let s2 := gpio_pin_set_dt_led0 0 s1
      let s3 := { s2 with current_state := STATE_WAITING }
      let s4 := reset_password_entry s3
      { s4 with btn3_was_pressed := true }
    else s
  else { s with btn3_was_pressed := false }

/-- The statements shared by the four blocks of the `STATE_WAITING` branch
before the flag is set: `printk`, `current_state = STATE_LOCKED`,
`gpio_pin_set_dt(&led0, 1)`, `reset_password_entry()`. -/
def reset_to_locked (s : Sys) : Sys :=
  reset_password_entry
    (gpio_pin_set_dt_led0 1
      { printk Msg.resetting s with current_state := STATE_LOCKED })

/-- Lines 175-183: the `BTN0` block of the `STATE_WAITING` branch. -/
def waiting_btn0 (btn0_state : Int) (s : Sys) : Sys :=
  if 0 < btn0_state ∧ s.btn0_was_pressed = false then
    { reset_to_locked s with btn0_was_pressed := true }
  else if btn0_state = 0 then { s with btn0_was_pressed := false }
  else s

/-- Lines 185-193: the `BTN1` block of the `STATE_WAITING` branch. -/
def waiting_btn1 (btn1_state : Int) (s : Sys) : Sys :=
  if 0 < btn1_state ∧ s.btn1_was_pressed = false then
    { reset_to_locked s with btn1_was_pressed := true }
  else if btn1_state = 0 then { s with btn1_was_pressed := false }
  else s

/-- Lines 195-203: the `BTN2` block of the `STATE_WAITING` branch. -/
def waiting_btn2 (btn2_state : Int) (s : Sys) : Sys :=
  if 0 < btn2_state ∧ s.btn2_was_pressed = false then
    { reset_to_locked s with btn2_was_pressed := true }
  else if btn2_state = 0 then { s with btn2_was_pressed := false }
  else s

/-- Lines 205-213: the `BTN3` block of the `STATE_WAITING` branch. -/
def waiting_btn3 (btn3_state : Int) (s : Sys) : Sys :=
  if 0 < btn3_state ∧ s.btn3_was_pressed = false then
    { reset_to_locked s with btn3_was_pressed := true }
  else if btn3_state = 0 then { s with btn3_was_pressed := false }
  else s

/-- One iteration of the `while(1)` body (lines 112-216): the branch is chosen
by `current_state` as it is on entry, and the four blocks of the branch run
in the order 0, 1, 2, 3. -/
def loop_body (s : Sys) (inp : Inputs) : Sys :=
  if s.current_state = STATE_LOCKED then
    locked_btn3 inp.btn3_state
      (locked_btn2 inp.btn2_state
        (locked_btn1 inp.btn1_state
          (locked_btn0 inp.btn0_state s)))
  else if s.current_state = STATE_WAITING then
    waiting_btn3 inp.btn3_state
      (waiting_btn2 inp.btn2_state
        (waiting_btn1 inp.btn1_state
          (waiting_btn0 inp.btn0_state s)))
  else s

/-- The loop body run once per element of a list of readings, in order. -/
def run (s : Sys) (inps : List Inputs) : Sys :=
  inps.foldl loop_body s

/-- The globals as C initialises them before `main` runs (lines 35-43;
`password_buffer` has static storage and is zero-initialised). -/
def statics : Sys :=
  { current_state := STATE_LOCKED,
    password_buffer := fun _ => 0,
    password_index := 0,
    btn0_was_pressed := false,
    btn1_was_pressed := false,
    btn2_was_pressed := false,
    btn3_was_pressed := false,
    led0 := false,
    trace := [] }

/-- The state on entry to the `while(1)` loop when every readiness check and
pin configuration succeeds (lines 68-109): `led0` is configured
`GPIO_OUTPUT_ACTIVE`, the two banner lines are printed and
`reset_password_entry()` is called. -/
def startup : Sys :=
  reset_password_entry
    (printk Msg.banner (printk Msg.started { statics with led0 := true }))

/-- States the loop can be in at the top of an iteration. -/
inductive Reachable : Sys → Prop where
  | init : Reachable startup
  | step (s : Sys) (inp : Inputs) : Reachable s → Reachable (loop_body s inp)

/-! ## Vocabulary for the properties -/

/-- The was-pressed flag of button `b`. -/
def was_pressed (s : Sys) (b : Fin 4) : Bool :=
  ![s.btn0_was_pressed, s.btn1_was_pressed, s.btn2_was_pressed,
    s.btn3_was_pressed] b

/-- The reading of button `b`. -/
def btn_state (inp : Inputs) (b : Fin 4) : Int :=
  ![inp.btn0_state, inp.btn1_state, inp.btn2_state, inp.btn3_state] b

/-- A press event (rising edge) of button `b`: the level read is true while
the stored flag is false. -/
def rising (s : Sys) (inp : Inputs) (b : Fin 4) : Prop :=
  0 < btn_state inp b ∧ was_pressed s b = false

instance (s : Sys) (inp : Inputs) (b : Fin 4) : Decidable (rising s inp b) := by
  unfold rising; infer_instance

/-- The events appended to the trace by one iteration started in `s`. -/
def tick_events (s : Sys) (inp : Inputs) : List Event :=
  (loop_body s inp).trace.drop s.trace.length

/-- The buffer is cleared: index 0 and every slot holds the marker `0xFF`. -/
def cleared (s : Sys) : Prop :=
  s.password_index = 0 ∧ ∀ i, s.password_buffer i = 0xFF

/-- One press of button `b` with the others released: a tick with the level
true followed by a tick with the level false. -/
def press_release (b : Fin 4) : List Inputs :=
  [levels (b = 0) (b = 1) (b = 2) (b = 3), levels false false false false]

/-- A tick in which button `b` is pressed and the others are released. -/
def press (b : Fin 4) : Inputs :=
  levels (b = 0) (b = 1) (b = 2) (b = 3)

instance (s : Sys) : Decidable (cleared s) := by
  unfold cleared; infer_instance

/-- Scenario A up to the confirm press: four separate presses of button 1. -/
def scenarioA_digits : List Inputs :=
  press_release 1 ++ press_release 1 ++ press_release 1 ++ press_release 1

/-- Four separate presses of button 0: the buffer is full afterwards. -/
def four_presses_btn0 : List Inputs :=
  press_release 0 ++ press_release 0 ++ press_release 0 ++ press_release 0

/-- Four separate presses of the digit buttons `d1 .. d4` (each one of
buttons 0, 1, 2). -/
def enter_digits (d1 d2 d3 d4 : Fin 3) : List Inputs :=
  press_release d1.castSucc ++ press_release d2.castSucc ++
    press_release d3.castSucc ++ press_release d4.castSucc

/-- The state reached from startup by pressing and releasing button 3: it is
`STATE_WAITING` with every flag false. -/
def waiting_example : Sys :=
  run startup [press 3, levels false false false false]

/-- The shape of the buffer between ticks: every slot below `password_index`
holds one of the digits 0, 1, 2 and every slot at or above it holds the
marker `0xFF`. -/
def digits_then_empty (s : Sys) : Prop :=
  ∀ i : Fin PASSWORD_LENGTH,
    (i.val < s.password_index →
      s.password_buffer i = 0 ∨ s.password_buffer i = 1 ∨
        s.password_buffer i = 2) ∧
    (s.password_index ≤ i.val → s.password_buffer i = 0xFF)

/-- Append of one digit to the password buffer as the spec words it: written at the
fill-count and the fill-count incremented when it is below the capacity 4,
dropped otherwise. -/
def append_digit (p : Buffer × Nat) (d : Fin 3) : Buffer × Nat :=
  if h : p.2 < PASSWORD_LENGTH then
    (Function.update p.1 ⟨p.2, h⟩ d.val, p.2 + 1)
  else p

/-- Append of several digits as the spec words it, one after another. -/
def append_digits (p : Buffer × Nat) (ds : List (Fin 3)) : Buffer × Nat :=
  ds.foldl append_digit p

/-- The digit buttons (0, 1, 2) that have a rising edge in a tick, in
ascending button order. -/
def rising_digits (s : Sys) (inp : Inputs) : List (Fin 3) :=
  (List.finRange 3).filter (fun b => rising s inp b.castSucc)

/-- Three separate presses of button 0: the buffer holds 0, 0, 0 afterwards
and the index is 3. -/
def three_presses_btn0 : List Inputs :=
  press_release 0 ++ press_release 0 ++ press_release 0

/-! ## Basic facts about the operations -/

theorem finRange_password_length :
    List.finRange PASSWORD_LENGTH = [0, 1, 2, 3] := by
  decide

theorem reset_password_entry_buffer (s : Sys) (i : Fin PASSWORD_LENGTH) :
    (reset_password_entry s).password_buffer i = 0xFF := by
  simp only [reset_password_entry, finRange_password_length, List.foldl]
  fin_cases i <;> simp [Function.update]

theorem check_password_loop_iff (buf : Buffer) :
    check_password_loop buf (List.finRange PASSWORD_LENGTH) = true ↔
      ∀ i, buf i = correct_password i := by
  simp only [finRange_password_length, check_password_loop]
  constructor
  · intro h i
    fin_cases i <;> simp_all
  · intro h
    simp [h]

theorem rising_zero (s : Sys) (inp : Inputs) :
    rising s inp 0 ↔ 0 < inp.btn0_state ∧ s.btn0_was_pressed = false := Iff.rfl

theorem rising_one (s : Sys) (inp : Inputs) :
    rising s inp 1 ↔ 0 < inp.btn1_state ∧ s.btn1_was_pressed = false := Iff.rfl

theorem rising_two (s : Sys) (inp : Inputs) :
    rising s inp 2 ↔ 0 < inp.btn2_state ∧ s.btn2_was_pressed = false := Iff.rfl

theorem rising_three (s : Sys) (inp : Inputs) :
    rising s inp 3 ↔ 0 < inp.btn3_state ∧ s.btn3_was_pressed = false := Iff.rfl

theorem exists_rising_iff (s : Sys) (inp : Inputs) :
    (∃ b, rising s inp b) ↔
      rising s inp 0 ∨ rising s inp 1 ∨ rising s inp 2 ∨ rising s inp 3 := by
  constructor
  · rintro ⟨b, hb⟩
    fin_cases b
    · exact Or.inl hb
    · exact Or.inr (Or.inl hb)
    · exact Or.inr (Or.inr (Or.inl hb))
    · exact Or.inr (Or.inr (Or.inr hb))
  · rintro (h | h | h | h) <;> exact ⟨_, h⟩

theorem reset_password_entry_all (s : Sys) :
    (reset_password_entry s).password_buffer = fun _ => 0xFF :=
  funext (reset_password_entry_buffer s)

theorem reset_password_entry_eq (s : Sys) :
    reset_password_entry s =
      { s with password_index := 0, password_buffer := fun _ => 0xFF } := by
  have h := reset_password_entry_all s
  simp only [reset_password_entry] at h ⊢
  rw [h]

/-- The `BTN0` block of the locked branch, field by field. -/
theorem locked_btn0_eq (st : Int) (s : Sys) :
    locked_btn0 st s =
      { current_state := s.current_state,
        password_buffer :=
          if h : 0 < st ∧ s.btn0_was_pressed = false ∧
              s.password_index < PASSWORD_LENGTH then
            Function.update s.password_buffer ⟨s.password_index, h.2.2⟩ 0
          else s.password_buffer,
        password_index :=
          if 0 < st ∧ s.btn0_was_pressed = false ∧
              s.password_index < PASSWORD_LENGTH then
            (s.password_index + 1) % 256
          else s.password_index,
        btn0_was_pressed := if 0 < st then
            (if s.btn0_was_pressed = false ∧ s.password_index < PASSWORD_LENGTH then true
              else s.btn0_was_pressed)
          else false,
        btn1_was_pressed := s.btn1_was_pressed,
        btn2_was_pressed := s.btn2_was_pressed,
        btn3_was_pressed := s.btn3_was_pressed,
        led0 := s.led0,
        trace :=
          if 0 < st ∧ s.btn0_was_pressed = false ∧
              s.password_index < PASSWORD_LENGTH then
            s.trace ++ [Event.printk Msg.entered_btn0]
          else s.trace } := by
  obtain ⟨cs, buf, idx, f0, f1, f2, f3, led, tr⟩ := s
  simp only [locked_btn0, printk]
  split_ifs <;> simp_all

/-- The `BTN1` block of the locked branch, field by field. -/
theorem locked_btn1_eq (st : Int) (s : Sys) :
    locked_btn1 st s =
      { current_state := s.current_state,
        password_buffer :=
          if h : 0 < st ∧ s.btn1_was_pressed = false ∧
              s.password_index < PASSWORD_LENGTH then
            Function.update s.password_buffer ⟨s.password_index, h.2.2⟩ 1
          else s.password_buffer,
        password_index :=
          if 0 < st ∧ s.btn1_was_pressed = false ∧
              s.password_index < PASSWORD_LENGTH then
            (s.password_index + 1) % 256
          else s.password_index,
        btn0_was_pressed := s.btn0_was_pressed,
        btn1_was_pressed := if 0 < st then
            (if s.btn1_was_pressed = false ∧ s.password_index < PASSWORD_LENGTH then true
              else s.btn1_was_pressed)
          else false,
        btn2_was_pressed := s.btn2_was_pressed,
        btn3_was_pressed := s.btn3_was_pressed,
        led0 := s.led0,
        trace :=
          if 0 < st ∧ s.btn1_was_pressed = false ∧
              s.password_index < PASSWORD_LENGTH then
            s.trace ++ [Event.printk Msg.entered_btn1]
          else s.trace } := by
  obtain ⟨cs, buf, idx, f0, f1, f2, f3, led, tr⟩ := s
  simp only [locked_btn1, printk]
  split_ifs <;> simp_all

/-- The `BTN2` block of the locked branch, field by field. -/
theorem locked_btn2_eq (st : Int) (s : Sys) :
    locked_btn2 st s =
      { current_state := s.current_state,
        password_buffer :=
          if h : 0 < st ∧ s.btn2_was_pressed = false ∧
              s.password_index < PASSWORD_LENGTH then
            Function.update s.password_buffer ⟨s.password_index, h.2.2⟩ 2
          else s.password_buffer,
        password_index :=
          if 0 < st ∧ s.btn2_was_pressed = false ∧
              s.password_index < PASSWORD_LENGTH then
            (s.password_index + 1) % 256
          else s.password_index,
        btn0_was_pressed := s.btn0_was_pressed,
        btn1_was_pressed := s.btn1_was_pressed,
        btn2_was_pressed := if 0 < st then
            (if s.btn2_was_pressed = false ∧ s.password_index < PASSWORD_LENGTH then true
              else s.btn2_was_pressed)
          else false,
        btn3_was_pressed := s.btn3_was_pressed,
        led0 := s.led0,
        trace :=
          if 0 < st ∧ s.btn2_was_pressed = false ∧
              s.password_index < PASSWORD_LENGTH then
            s.trace ++ [Event.printk Msg.entered_btn2]
          else s.trace } := by
  obtain ⟨cs, buf, idx, f0, f1, f2, f3, led, tr⟩ := s
  simp only [locked_btn2, printk]
  split_ifs <;> simp_all

/-- The `BTN3` block of the locked branch, field by field. -/
theorem locked_btn3_eq (st : Int) (s : Sys) :
    locked_btn3 st s =
      { current_state :=
          if 0 < st ∧ s.btn3_was_pressed = false then STATE_WAITING
          else s.current_state,
        password_buffer :=
          if 0 < st ∧ s.btn3_was_pressed = false then fun _ => 0xFF
          else s.password_buffer,
        password_index :=
          if 0 < st ∧ s.btn3_was_pressed = false then 0
          else s.password_index,
        btn0_was_pressed := s.btn0_was_pressed,
        btn1_was_pressed := s.btn1_was_pressed,
        btn2_was_pressed := s.btn2_was_pressed,
        btn3_was_pressed := decide (0 < st),
        led0 :=
          if 0 < st ∧ s.btn3_was_pressed = false then false else s.led0,
        trace :=
          if 0 < st ∧ s.btn3_was_pressed = false then
            s.trace ++
              [Event.printk (if check_password s then Msg.correct
                else Msg.incorrect),
               Event.gpio_pin_set_led0 0]
          else s.trace } := by
  obtain ⟨cs, buf, idx, f0, f1, f2, f3, led, tr⟩ := s
  simp only [locked_btn3, printk, gpio_pin_set_dt_led0, reset_password_entry_eq]
  split_ifs <;> simp_all

/-- The `BTN0` block of the waiting branch, field by field. -/
theorem waiting_btn0_eq (st : Int) (s : Sys) :
    waiting_btn0 st s =
      { current_state :=
          if 0 < st ∧ s.btn0_was_pressed = false then STATE_LOCKED
          else s.current_state,
        password_buffer :=
          if 0 < st ∧ s.btn0_was_pressed = false then fun _ => 0xFF
          else s.password_buffer,
        password_index :=
          if 0 < st ∧ s.btn0_was_pressed = false then 0
          else s.password_index,
        btn0_was_pressed := if 0 < st then true
          else if st = 0 then false else s.btn0_was_pressed,
        btn1_was_pressed := s.btn1_was_pressed,
        btn2_was_pressed := s.btn2_was_pressed,
        btn3_was_pressed := s.btn3_was_pressed,
        led0 :=
          if 0 < st ∧ s.btn0_was_pressed = false then true else s.led0,
        trace :=
          if 0 < st ∧ s.btn0_was_pressed = false then
            s.trace ++ [Event.printk Msg.resetting, Event.gpio_pin_set_led0 1]
          else s.trace } := by
  obtain ⟨cs, buf, idx, f0, f1, f2, f3, led, tr⟩ := s
  simp only [waiting_btn0, reset_to_locked, printk, gpio_pin_set_dt_led0,
    reset_password_entry_eq]
  split_ifs <;> simp_all

/-- The `BTN1` block of the waiting branch, field by field. -/
theorem waiting_btn1_eq (st : Int) (s : Sys) :
    waiting_btn1 st s =
      { current_state :=
          if 0 < st ∧ s.btn1_was_pressed = false then STATE_LOCKED
          else s.current_state,
        password_buffer :=
          if 0 < st ∧ s.btn1_was_pressed = false then fun _ => 0xFF
          else s.password_buffer,
        password_index :=
          if 0 < st ∧ s.btn1_was_pressed = false then 0
          else s.password_index,
        btn0_was_pressed := s.btn0_was_pressed,
        btn1_was_pressed := if 0 < st then true
          else if st = 0 then false else s.btn1_was_pressed,
        btn2_was_pressed := s.btn2_was_pressed,
        btn3_was_pressed := s.btn3_was_pressed,
        led0 :=
          if 0 < st ∧ s.btn1_was_pressed = false then true else s.led0,
        trace :=
          if 0 < st ∧ s.btn1_was_pressed = false then
            s.trace ++ [Event.printk Msg.resetting, Event.gpio_pin_set_led0 1]
          else s.trace } := by
  obtain ⟨cs, buf, idx, f0, f1, f2, f3, led, tr⟩ := s
  simp only [waiting_btn1, reset_to_locked, printk, gpio_pin_set_dt_led0,
    reset_password_entry_eq]
  split_ifs <;> simp_all

/-- The `BTN2` block of the waiting branch, field by field. -/
theorem waiting_btn2_eq (st : Int) (s : Sys) :
    waiting_btn2 st s =
      { current_state :=
          if 0 < st ∧ s.btn2_was_pressed = false then STATE_LOCKED
          else s.current_state,
        password_buffer :=
          if 0 < st ∧ s.btn2_was_pressed = false then fun _ => 0xFF
          else s.password_buffer,
        password_index :=
          if 0 < st ∧ s.btn2_was_pressed = false then 0
          else s.password_index,
        btn0_was_pressed := s.btn0_was_pressed,
        btn1_was_pressed := s.btn1_was_pressed,
        btn2_was_pressed := if 0 < st then true
          else if st = 0 then false else s.btn2_was_pressed,
        btn3_was_pressed := s.btn3_was_pressed,
        led0 :=
          if 0 < st ∧ s.btn2_was_pressed = false then true else s.led0,
        trace :=
          if 0 < st ∧ s.btn2_was_pressed = false then
            s.trace ++ [Event.printk Msg.resetting, Event.gpio_pin_set_led0 1]
          else s.trace } := by
  obtain ⟨cs, buf, idx, f0, f1, f2, f3, led, tr⟩ := s
  simp only [waiting_btn2, reset_to_locked, printk, gpio_pin_set_dt_led0,
    reset_password_entry_eq]
  split_ifs <;> simp_all

/-- The `BTN3` block of the waiting branch, field by field. -/
theorem waiting_btn3_eq (st : Int) (s : Sys) :
    waiting_btn3 st s =
      { current_state :=
          if 0 < st ∧ s.btn3_was_pressed = false then STATE_LOCKED
          else s.current_state,
        password_buffer :=
          if 0 < st ∧ s.btn3_was_pressed = false then fun _ => 0xFF
          else s.password_buffer,
        password_index :=
          if 0 < st ∧ s.btn3_was_pressed = false then 0
          else s.password_index,
        btn0_was_pressed := s.btn0_was_pressed,
        btn1_was_pressed := s.btn1_was_pressed,
        btn2_was_pressed := s.btn2_was_pressed,
        btn3_was_pressed := if 0 < st then true
          else if st = 0 then false else s.btn3_was_pressed,
        led0 :=
          if 0 < st ∧ s.btn3_was_pressed = false then true else s.led0,
        trace :=
          if 0 < st ∧ s.btn3_was_pressed = false then
            s.trace ++ [Event.printk Msg.resetting, Event.gpio_pin_set_led0 1]
          else s.trace } := by
  obtain ⟨cs, buf, idx, f0, f1, f2, f3, led, tr⟩ := s
  simp only [waiting_btn3, reset_to_locked, printk, gpio_pin_set_dt_led0,
    reset_password_entry_eq]
  split_ifs <;> simp_all

theorem locked_btn0_index_le (st : Int) (s : Sys) (h : s.password_index ≤ 4) :
    (locked_btn0 st s).password_index ≤ 4 := by
  rw [locked_btn0_eq]
  dsimp only [PASSWORD_LENGTH]
  split_ifs <;> omega

theorem locked_btn1_index_le (st : Int) (s : Sys) (h : s.password_index ≤ 4) :
    (locked_btn1 st s).password_index ≤ 4 := by
  rw [locked_btn1_eq]
  dsimp only [PASSWORD_LENGTH]
  split_ifs <;> omega

theorem locked_btn2_index_le (st : Int) (s : Sys) (h : s.password_index ≤ 4) :
    (locked_btn2 st s).password_index ≤ 4 := by
  rw [locked_btn2_eq]
  dsimp only [PASSWORD_LENGTH]
  split_ifs <;> omega

theorem locked_btn3_index_le (st : Int) (s : Sys) (h : s.password_index ≤ 4) :
    (locked_btn3 st s).password_index ≤ 4 := by
  rw [locked_btn3_eq]
  dsimp only
  split_ifs <;> omega

theorem waiting_btn0_index_le (st : Int) (s : Sys) (h : s.password_index ≤ 4) :
    (waiting_btn0 st s).password_index ≤ 4 := by
  rw [waiting_btn0_eq]
  dsimp only
  split_ifs <;> omega

theorem waiting_btn1_index_le (st : Int) (s : Sys) (h : s.password_index ≤ 4) :
    (waiting_btn1 st s).password_index ≤ 4 := by
  rw [waiting_btn1_eq]
  dsimp only
  split_ifs <;> omega

theorem waiting_btn2_index_le (st : Int) (s : Sys) (h : s.password_index ≤ 4) :
    (waiting_btn2 st s).password_index ≤ 4 := by
  rw [waiting_btn2_eq]
  dsimp only
  split_ifs <;> omega

theorem waiting_btn3_index_le (st : Int) (s : Sys) (h : s.password_index ≤ 4) :
    (waiting_btn3 st s).password_index ≤ 4 := by
  rw [waiting_btn3_eq]
  dsimp only
  split_ifs <;> omega

theorem loop_body_index_le (s : Sys) (inp : Inputs) (h : s.password_index ≤ 4) :
    (loop_body s inp).password_index ≤ 4 := by
  unfold loop_body
  split_ifs
  · exact locked_btn3_index_le _ _ (locked_btn2_index_le _ _
      (locked_btn1_index_le _ _ (locked_btn0_index_le _ _ h)))
  · exact waiting_btn3_index_le _ _ (waiting_btn2_index_le _ _
      (waiting_btn1_index_le _ _ (waiting_btn0_index_le _ _ h)))
  · exact h

theorem loop_body_locked (s : Sys) (inp : Inputs)
    (hs : s.current_state = STATE_LOCKED) :
    loop_body s inp =
      locked_btn3 inp.btn3_state (locked_btn2 inp.btn2_state
        (locked_btn1 inp.btn1_state (locked_btn0 inp.btn0_state s))) := by
  simp [loop_body, hs]

theorem loop_body_waiting (s : Sys) (inp : Inputs)
    (hs : s.current_state = STATE_WAITING) :
    loop_body s inp =
      waiting_btn3 inp.btn3_state (waiting_btn2 inp.btn2_state
        (waiting_btn1 inp.btn1_state (waiting_btn0 inp.btn0_state s))) := by
  simp [loop_body, hs]

theorem tick_events_of_trace (s : Sys) (inp : Inputs) (evs : List Event)
    (h : (loop_body s inp).trace = s.trace ++ evs) :
    tick_events s inp = evs := by
  simp [tick_events, h]

theorem locked_btn0_trace (st : Int) (s : Sys) :
    ∃ evs, (locked_btn0 st s).trace = s.trace ++ evs := by
  rw [locked_btn0_eq]
  dsimp only
  split_ifs
  · exact ⟨_, rfl⟩
  · exact ⟨[], by simp⟩

theorem locked_btn1_trace (st : Int) (s : Sys) :
    ∃ evs, (locked_btn1 st s).trace = s.trace ++ evs := by
  rw [locked_btn1_eq]
  dsimp only
  split_ifs
  · exact ⟨_, rfl⟩
  · exact ⟨[], by simp⟩

theorem locked_btn2_trace (st : Int) (s : Sys) :
    ∃ evs, (locked_btn2 st s).trace = s.trace ++ evs := by
  rw [locked_btn2_eq]
  dsimp only
  split_ifs
  · exact ⟨_, rfl⟩
  · exact ⟨[], by simp⟩

theorem locked_digits_trace (s : Sys) (inp : Inputs) :
    ∃ evs, (locked_btn2 inp.btn2_state (locked_btn1 inp.btn1_state
      (locked_btn0 inp.btn0_state s))).trace = s.trace ++ evs := by
  obtain ⟨e0, h0⟩ := locked_btn0_trace inp.btn0_state s
  obtain ⟨e1, h1⟩ := locked_btn1_trace inp.btn1_state
    (locked_btn0 inp.btn0_state s)
  obtain ⟨e2, h2⟩ := locked_btn2_trace inp.btn2_state
    (locked_btn1 inp.btn1_state (locked_btn0 inp.btn0_state s))
  exact ⟨e0 ++ (e1 ++ e2), by rw [h2, h1, h0]; simp⟩


theorem waiting_tick_fields (s : Sys) (inp : Inputs)
    (hs : s.current_state = STATE_WAITING) :
    (loop_body s inp).current_state
      = (if ∃ b, rising s inp b then STATE_LOCKED else STATE_WAITING) ∧
    (loop_body s inp).led0 = (if ∃ b, rising s inp b then true else s.led0) ∧
    (loop_body s inp).password_index
      = (if ∃ b, rising s inp b then 0 else s.password_index) ∧
    (loop_body s inp).password_buffer
      = (if ∃ b, rising s inp b then fun _ => 0xFF else s.password_buffer) ∧
    (loop_body s inp).trace = s.trace ++
      ((if rising s inp 0 then
          [Event.printk Msg.resetting, Event.gpio_pin_set_led0 1] else []) ++
       (if rising s inp 1 then
          [Event.printk Msg.resetting, Event.gpio_pin_set_led0 1] else []) ++
       (if rising s inp 2 then
          [Event.printk Msg.resetting, Event.gpio_pin_set_led0 1] else []) ++
       (if rising s inp 3 then
          [Event.printk Msg.resetting, Event.gpio_pin_set_led0 1] else [])) := by
  rw [loop_body_waiting s inp hs]
  simp only [exists_rising_iff, rising_zero, rising_one, rising_two,
    rising_three, waiting_btn0_eq, waiting_btn1_eq, waiting_btn2_eq,
    waiting_btn3_eq, hs]
  by_cases h0 : 0 < inp.btn0_state ∧ s.btn0_was_pressed = false <;>
  by_cases h1 : 0 < inp.btn1_state ∧ s.btn1_was_pressed = false <;>
  by_cases h2 : 0 < inp.btn2_state ∧ s.btn2_was_pressed = false <;>
  by_cases h3 : 0 < inp.btn3_state ∧ s.btn3_was_pressed = false <;>
  simp [h0, h1, h2, h3]

theorem locked_only_btn0 (s : Sys) (inp : Inputs)
    (hs : s.current_state = STATE_LOCKED) (hk : s.password_index < 4)
    (h0 : 0 < inp.btn0_state ∧ s.btn0_was_pressed = false)
    (h1 : ¬ (0 < inp.btn1_state ∧ s.btn1_was_pressed = false))
    (h2 : ¬ (0 < inp.btn2_state ∧ s.btn2_was_pressed = false))
    (h3 : ¬ (0 < inp.btn3_state ∧ s.btn3_was_pressed = false)) :
    (loop_body s inp).password_buffer
      = Function.update s.password_buffer ⟨s.password_index, hk⟩ 0 ∧
    (loop_body s inp).password_index = s.password_index + 1 := by
  have hm : (s.password_index + 1) % 256 = s.password_index + 1 := by omega
  rw [loop_body_locked s inp hs]
  simp only [locked_btn0_eq, locked_btn1_eq, locked_btn2_eq, locked_btn3_eq]
  rcases not_and_or.mp h1 with h1 | h1 <;>
  rcases not_and_or.mp h2 with h2 | h2 <;>
  rcases not_and_or.mp h3 with h3 | h3 <;>
  simp [h0, h1, h2, h3, hk, hm]

theorem locked_only_btn1 (s : Sys) (inp : Inputs)
    (hs : s.current_state = STATE_LOCKED) (hk : s.password_index < 4)
    (h0 : ¬ (0 < inp.btn0_state ∧ s.btn0_was_pressed = false))
    (h1 : 0 < inp.btn1_state ∧ s.btn1_was_pressed = false)
    (h2 : ¬ (0 < inp.btn2_state ∧ s.btn2_was_pressed = false))
    (h3 : ¬ (0 < inp.btn3_state ∧ s.btn3_was_pressed = false)) :
    (loop_body s inp).password_buffer
      = Function.update s.password_buffer ⟨s.password_index, hk⟩ 1 ∧
    (loop_body s inp).password_index = s.password_index + 1 := by
  have hm : (s.password_index + 1) % 256 = s.password_index + 1 := by omega
  rw [loop_body_locked s inp hs]
  simp only [locked_btn0_eq, locked_btn1_eq, locked_btn2_eq, locked_btn3_eq]
  rcases not_and_or.mp h0 with h0 | h0 <;>
  rcases not_and_or.mp h2 with h2 | h2 <;>
  rcases not_and_or.mp h3 with h3 | h3 <;>
  simp [h0, h1, h2, h3, hk, hm]

theorem locked_only_btn2 (s : Sys) (inp : Inputs)
    (hs : s.current_state = STATE_LOCKED) (hk : s.password_index < 4)
    (h0 : ¬ (0 < inp.btn0_state ∧ s.btn0_was_pressed = false))
    (h1 : ¬ (0 < inp.btn1_state ∧ s.btn1_was_pressed = false))
    (h2 : 0 < inp.btn2_state ∧ s.btn2_was_pressed = false)
    (h3 : ¬ (0 < inp.btn3_state ∧ s.btn3_was_pressed = false)) :
    (loop_body s inp).password_buffer
      = Function.update s.password_buffer ⟨s.password_index, hk⟩ 2 ∧
    (loop_body s inp).password_index = s.password_index + 1 := by
  have hm : (s.password_index + 1) % 256 = s.password_index + 1 := by omega
  rw [loop_body_locked s inp hs]
  simp only [locked_btn0_eq, locked_btn1_eq, locked_btn2_eq, locked_btn3_eq]
  rcases not_and_or.mp h0 with h0 | h0 <;>
  rcases not_and_or.mp h1 with h1 | h1 <;>
  rcases not_and_or.mp h3 with h3 | h3 <;>
  simp [h0, h1, h2, h3, hk, hm]

theorem locked_single_digit_buffer (s : Sys) (inp : Inputs) (b : Fin 3)
    (hs : s.current_state = STATE_LOCKED) (hk : s.password_index < 4)
    (hb : rising s inp b.castSucc)
    (ho : ∀ c : Fin 4, c ≠ b.castSucc → ¬ rising s inp c) :
    (loop_body s inp).password_buffer
      = Function.update s.password_buffer ⟨s.password_index, hk⟩ b.val ∧
    (loop_body s inp).password_index = s.password_index + 1 := by
  have h0 := ho 0
  have h1 := ho 1
  have h2 := ho 2
  have h3 := ho 3
  fin_cases b
  · exact locked_only_btn0 s inp hs hk hb (h1 (by decide)) (h2 (by decide))
      (h3 (by decide))
  · exact locked_only_btn1 s inp hs hk (h0 (by decide)) hb (h2 (by decide))
      (h3 (by decide))
  · exact locked_only_btn2 s inp hs hk (h0 (by decide)) (h1 (by decide)) hb
      (h3 (by decide))

/-! ## Scenario A and the password check -/

/-- C1, evaluated on the code: from startup, four separate presses of button 1
fill the buffer with the digit 1 four times, and the press of button 3 that
follows prints "Incorrect!" (not "Correct!"), writes 0 to the indicator and
leaves the indicator off, the state `STATE_WAITING` and the buffer cleared. -/
theorem scenarioA_prints_incorrect :
    (run startup scenarioA_digits).password_index = 4 ∧
    (∀ i, (run startup scenarioA_digits).password_buffer i = 1) ∧
    tick_events (run startup scenarioA_digits) (press 3) =
      [Event.printk Msg.incorrect, Event.gpio_pin_set_led0 0] ∧
    (loop_body (run startup scenarioA_digits) (press 3)).led0 = false ∧
    (loop_body (run startup scenarioA_digits) (press 3)).current_state
      = STATE_WAITING ∧
    cleared (loop_body (run startup scenarioA_digits) (press 3)) := by
  decide

/-- C2: `check_password` returns true exactly when the index is 4 and every
slot equals the slot of `correct_password` at the same position, which is
exactly when the index is 4 and the buffer is `[0,0,0,0]`; in every other
case it returns false. -/
theorem check_password_iff (s : Sys) :
    (check_password s = true ↔
      s.password_index = 4 ∧ ∀ i, s.password_buffer i = correct_password i) ∧
    (check_password s = true ↔
      s.password_index = 4 ∧ s.password_buffer = ![0, 0, 0, 0]) ∧
    (check_password s = false ↔
      ¬ (s.password_index = 4 ∧ s.password_buffer = ![0, 0, 0, 0])) := by
  have h1 : check_password s = true ↔
      s.password_index = 4 ∧ ∀ i, s.password_buffer i = correct_password i := by
    unfold check_password
    by_cases hi : s.password_index = PASSWORD_LENGTH
    · simp [hi, check_password_loop_iff]
    · simp [hi]
  have h2 : (∀ i, s.password_buffer i = correct_password i) ↔
      s.password_buffer = ![0, 0, 0, 0] := by
    constructor
    · intro h
      funext i
      exact h i
    · intro h i
      rw [h]
      rfl
  refine ⟨h1, ?_, ?_⟩
  · rw [h1, h2]
  · rw [← h2, ← h1]
    cases check_password s <;> simp

/-! ## Edge tracking with a full buffer -/

/-- C3, evaluated on the code: after four separate presses of button 0 the
state is `STATE_LOCKED` with index 4 and the flag of button 0 false; one more tick
with button 0 pressed leaves the buffer and index as they were and leaves
the flag of button 0 false although its level is true. -/
theorem full_buffer_press_keeps_flag_false :
    (run startup four_presses_btn0).current_state = STATE_LOCKED ∧
    (run startup four_presses_btn0).password_index = 4 ∧
    was_pressed (run startup four_presses_btn0) 0 = false ∧
    btn_state (press 0) 0 = 1 ∧
    was_pressed (loop_body (run startup four_presses_btn0) (press 0)) 0
      = false ∧
    (loop_body (run startup four_presses_btn0) (press 0)).password_index
      = 4 ∧
    tick_events (run startup four_presses_btn0) (press 0) = [] := by
  decide

/-- C4, evaluated on the code: with the buffer full (four separate presses of
button 0) and the flag of button 0 false, button 0 is held for two ticks while
button 3 is pressed on the first.  On the first tick only the confirm is
performed; the flag of button 0 is still false afterwards, so on the second tick
button 0 has a press event again and this one is acted upon (reset to
`STATE_LOCKED`). -/
theorem held_button_acts_on_second_tick :
    was_pressed (run startup four_presses_btn0) 0 = false ∧
    rising (run startup four_presses_btn0) (levels true false false true) 0 ∧
    tick_events (run startup four_presses_btn0) (levels true false false true)
      = [Event.printk Msg.correct, Event.gpio_pin_set_led0 0] ∧
    rising
      (loop_body (run startup four_presses_btn0)
        (levels true false false true))
      (levels true false false false) 0 ∧
    tick_events
      (loop_body (run startup four_presses_btn0)
        (levels true false false true))
      (levels true false false false)
      = [Event.printk Msg.resetting, Event.gpio_pin_set_led0 1] ∧
    (run (run startup four_presses_btn0)
      [levels true false false true, levels true false false false]).current_state
      = STATE_LOCKED := by
  decide

/-! ## Four digits and a confirm -/

/-- C5: for all digits `d1 .. d4` in `{0,1,2}`, entering them from startup
with four separate presses and then pressing button 3 prints "Correct!" if
and only if the four digits are those of `correct_password`, prints
"Incorrect!" otherwise, and in both cases leaves the indicator off and the
state `STATE_WAITING`; for the digits 0,1,2,1 the output is "Incorrect!". -/
theorem four_digits_then_confirm :
    (∀ d1 d2 d3 d4 : Fin 3,
      (tick_events (run startup (enter_digits d1 d2 d3 d4)) (press 3)
          = [Event.printk Msg.correct, Event.gpio_pin_set_led0 0] ↔
        ![d1.val, d2.val, d3.val, d4.val] = correct_password) ∧
      (tick_events (run startup (enter_digits d1 d2 d3 d4)) (press 3)
          = [Event.printk Msg.incorrect, Event.gpio_pin_set_led0 0] ↔
        ![d1.val, d2.val, d3.val, d4.val] ≠ correct_password) ∧
      (loop_body (run startup (enter_digits d1 d2 d3 d4)) (press 3)).led0
        = false ∧
      (loop_body (run startup (enter_digits d1 d2 d3 d4))
        (press 3)).current_state = STATE_WAITING) ∧
    tick_events (run startup (enter_digits 0 1 2 1)) (press 3)
      = [Event.printk Msg.incorrect, Event.gpio_pin_set_led0 0] := by
  decide

/-! ## Invariants and single-tick behaviour -/

/-- C6: in every state reachable from startup by any sequence of ticks with
arbitrary readings, `password_index` is at most 4. -/
theorem reachable_password_index_le (s : Sys) (h : Reachable s) :
    s.password_index ≤ 4 := by
  induction h with
  | init => decide
  | step s inp _ ih => exact loop_body_index_le s inp ih

theorem reachable_password_index_le_witness :
    Reachable (loop_body startup (press 0)) ∧
      (loop_body startup (press 0)).password_index ≤ 4 :=
  ⟨.step _ _ .init, reachable_password_index_le _ (.step _ _ .init)⟩

/-- C7: a tick in `STATE_LOCKED` with a rising edge on button 3 ends, for
every buffer content, index and readings of buttons 0-2, with the indicator
off, the state `STATE_WAITING`, index 0 and all four slots `0xFF`; the
last two output calls are the outcome message ("Correct!" or "Incorrect!")
and the write of 0 to the indicator. -/
theorem locked_confirm_goes_waiting (s : Sys) (inp : Inputs)
    (hs : s.current_state = STATE_LOCKED)
    (h3 : rising s inp 3) :
    (loop_body s inp).led0 = false ∧
    (loop_body s inp).current_state = STATE_WAITING ∧
    (loop_body s inp).password_index = 0 ∧
    (∀ i, (loop_body s inp).password_buffer i = 0xFF) ∧
    ∃ evs m, (m = Msg.correct ∨ m = Msg.incorrect) ∧
      tick_events s inp
        = evs ++ [Event.printk m, Event.gpio_pin_set_led0 0] := by
  rw [rising_three] at h3
  obtain ⟨h3a, h3b⟩ := h3
  obtain ⟨evs, hevs⟩ := locked_digits_trace s inp
  have hflag : (locked_btn2 inp.btn2_state (locked_btn1 inp.btn1_state
      (locked_btn0 inp.btn0_state s))).btn3_was_pressed = false := by
    simp only [locked_btn0_eq, locked_btn1_eq, locked_btn2_eq]
    exact h3b
  refine ⟨?_, ?_, ?_, ?_, evs, ?_⟩
  · rw [loop_body_locked s inp hs, locked_btn3_eq]
    simp [h3a, hflag]
  · rw [loop_body_locked s inp hs, locked_btn3_eq]
    simp [h3a, hflag]
  · rw [loop_body_locked s inp hs, locked_btn3_eq]
    simp [h3a, hflag]
  · intro i
    rw [loop_body_locked s inp hs, locked_btn3_eq]
    simp [h3a, hflag]
  · refine ⟨if check_password (locked_btn2 inp.btn2_state
        (locked_btn1 inp.btn1_state (locked_btn0 inp.btn0_state s)))
      then Msg.correct else Msg.incorrect, ?_, tick_events_of_trace s inp _ ?_⟩
    · split_ifs <;> simp
    · rw [loop_body_locked s inp hs, locked_btn3_eq]
      simp only [h3a, hflag, and_self, if_true, hevs, List.append_assoc]

theorem locked_confirm_goes_waiting_witness :
    (startup.current_state = STATE_LOCKED ∧ rising startup (press 3) 3) ∧
    (loop_body startup (press 3)).led0 = false ∧
    (loop_body startup (press 3)).current_state = STATE_WAITING ∧
    (loop_body startup (press 3)).password_index = 0 ∧
    (∀ i, (loop_body startup (press 3)).password_buffer i = 0xFF) ∧
    ∃ evs m, (m = Msg.correct ∨ m = Msg.incorrect) ∧
      tick_events startup (press 3)
        = evs ++ [Event.printk m, Event.gpio_pin_set_led0 0] :=
  ⟨by decide,
   locked_confirm_goes_waiting startup (press 3) (by decide) (by decide)⟩

/-- C8: for a tick in `STATE_WAITING`, the state afterwards is `STATE_LOCKED`
if and only if at least one of the four buttons has a rising edge; in that
case the indicator is on and the buffer is cleared, whichever buttons rose.
The only output calls of the tick are the reset message and the write of 1
to the indicator, so a rising edge on button 3 is not a confirm.  With no
rising edge the state, the indicator, the buffer and the index are unchanged
and there is no output. -/
theorem waiting_tick (s : Sys) (inp : Inputs)
    (hs : s.current_state = STATE_WAITING) :
    ((loop_body s inp).current_state = STATE_LOCKED ↔ ∃ b, rising s inp b) ∧
    ((∃ b, rising s inp b) →
      (loop_body s inp).led0 = true ∧ cleared (loop_body s inp)) ∧
    (∀ e ∈ tick_events s inp,
      e = Event.printk Msg.resetting ∨ e = Event.gpio_pin_set_led0 1) ∧
    ((¬ ∃ b, rising s inp b) →
      (loop_body s inp).current_state = s.current_state ∧
      (loop_body s inp).led0 = s.led0 ∧
      (loop_body s inp).password_buffer = s.password_buffer ∧
      (loop_body s inp).password_index = s.password_index ∧
      tick_events s inp = []) := by
  obtain ⟨hc, hl, hi, hb, ht⟩ := waiting_tick_fields s inp hs
  have hev := tick_events_of_trace s inp _ ht
  refine ⟨?_, ?_, ?_, ?_⟩
  · rw [hc]
    by_cases hr : ∃ b, rising s inp b <;> simp [hr]
  · intro hr
    refine ⟨?_, ?_, ?_⟩
    · rw [hl, if_pos hr]
    · rw [hi, if_pos hr]
    · intro i
      rw [hb, if_pos hr]
  · intro e he
    rw [hev] at he
    simp only [List.mem_append] at he
    rcases he with ((he | he) | he) | he <;>
      · split_ifs at he
        · simpa using he
        · simp at he
  · intro hr
    have h0 : ¬ rising s inp 0 := fun h => hr ⟨_, h⟩
    have h1 : ¬ rising s inp 1 := fun h => hr ⟨_, h⟩
    have h2 : ¬ rising s inp 2 := fun h => hr ⟨_, h⟩
    have h3 : ¬ rising s inp 3 := fun h => hr ⟨_, h⟩
    refine ⟨?_, ?_, ?_, ?_, ?_⟩
    · rw [hc, if_neg hr, hs]
    · rw [hl, if_neg hr]
    · rw [hb, if_neg hr]
    · rw [hi, if_neg hr]
    · rw [hev]
      simp [h0, h1, h2, h3]

theorem waiting_tick_witness :
    waiting_example.current_state = STATE_WAITING ∧
    (((loop_body waiting_example (levels false false true true)).current_state
        = STATE_LOCKED ↔
      ∃ b, rising waiting_example (levels false false true true) b) ∧
    ((∃ b, rising waiting_example (levels false false true true) b) →
      (loop_body waiting_example (levels false false true true)).led0 = true ∧
      cleared (loop_body waiting_example (levels false false true true))) ∧
    (∀ e ∈ tick_events waiting_example (levels false false true true),
      e = Event.printk Msg.resetting ∨ e = Event.gpio_pin_set_led0 1) ∧
    ((¬ ∃ b, rising waiting_example (levels false false true true) b) →
      (loop_body waiting_example (levels false false true true)).current_state
        = waiting_example.current_state ∧
      (loop_body waiting_example (levels false false true true)).led0
        = waiting_example.led0 ∧
      (loop_body waiting_example (levels false false true true)).password_buffer
        = waiting_example.password_buffer ∧
      (loop_body waiting_example (levels false false true true)).password_index
        = waiting_example.password_index ∧
      tick_events waiting_example (levels false false true true) = [])) :=
  ⟨by decide,
   waiting_tick waiting_example (levels false false true true) (by decide)⟩

/-- C9: a tick in `STATE_LOCKED` with index `k < 4` in which exactly one of
buttons 0, 1, 2 (button `b`) has a rising edge and no other button has one
(button 3 included) ends with slot `k` holding the digit `b`, index `k + 1`
and every other slot unchanged. -/
theorem locked_single_digit_appends (s : Sys) (inp : Inputs) (b : Fin 3)
    (hs : s.current_state = STATE_LOCKED) (hk : s.password_index < 4)
    (hb : rising s inp b.castSucc)
    (ho : ∀ c : Fin 4, c ≠ b.castSucc → ¬ rising s inp c) :
    (loop_body s inp).password_buffer ⟨s.password_index, hk⟩ = b.val ∧
    (loop_body s inp).password_index = s.password_index + 1 ∧
    ∀ j, j ≠ ⟨s.password_index, hk⟩ →
      (loop_body s inp).password_buffer j = s.password_buffer j := by
  obtain ⟨hbuf, hidx⟩ := locked_single_digit_buffer s inp b hs hk hb ho
  refine ⟨?_, hidx, ?_⟩
  · rw [hbuf]
    simp
  · intro j hj
    rw [hbuf]
    simp [Function.update, hj]

theorem locked_single_digit_appends_witness :
    (startup.current_state = STATE_LOCKED ∧ rising startup (press 2) 2 ∧
      ∀ c : Fin 4, c ≠ 2 → ¬ rising startup (press 2) c) ∧
    (loop_body startup (press 2)).password_buffer ⟨0, by decide⟩ = 2 ∧
    (loop_body startup (press 2)).password_index = 0 + 1 ∧
    ∀ j, j ≠ ⟨0, by decide⟩ →
      (loop_body startup (press 2)).password_buffer j
        = startup.password_buffer j :=
  ⟨by decide,
   locked_single_digit_appends startup (press 2) 2 (by decide) (by decide)
    (by decide) (by decide)⟩

/-- C10: a tick in `STATE_LOCKED` with index 4 and no rising edge on button 3
leaves the buffer contents and the index as they were, whatever the readings
and flags of buttons 0, 1 and 2. -/
theorem locked_full_buffer_unchanged (s : Sys) (inp : Inputs)
    (hs : s.current_state = STATE_LOCKED) (hk : s.password_index = 4)
    (h3 : ¬ rising s inp 3) :
    (loop_body s inp).password_buffer = s.password_buffer ∧
    (loop_body s inp).password_index = s.password_index := by
  rw [rising_three] at h3
  rw [loop_body_locked s inp hs]
  simp only [locked_btn0_eq, locked_btn1_eq, locked_btn2_eq, locked_btn3_eq]
  simp [hk, h3]

theorem locked_full_buffer_unchanged_witness :
    ((run startup four_presses_btn0).current_state = STATE_LOCKED ∧
      (run startup four_presses_btn0).password_index = 4 ∧
      ¬ rising (run startup four_presses_btn0)
        (levels true true true false) 3) ∧
    (loop_body (run startup four_presses_btn0)
        (levels true true true false)).password_buffer
      = (run startup four_presses_btn0).password_buffer ∧
    (loop_body (run startup four_presses_btn0)
        (levels true true true false)).password_index
      = (run startup four_presses_btn0).password_index :=
  ⟨by decide,
   locked_full_buffer_unchanged (run startup four_presses_btn0)
    (levels true true true false) (by decide) (by decide) (by decide)⟩

/-! ## Locked ticks without a confirm -/

theorem locked_tick_state (s : Sys) (inp : Inputs)
    (hs : s.current_state = STATE_LOCKED) :
    (loop_body s inp).current_state
      = (if rising s inp 3 then STATE_WAITING else STATE_LOCKED) ∧
    (loop_body s inp).led0 = (if rising s inp 3 then false else s.led0) ∧
    (rising s inp 3 → cleared (loop_body s inp)) := by
  rw [loop_body_locked s inp hs]
  simp only [locked_btn0_eq, locked_btn1_eq, locked_btn2_eq, locked_btn3_eq,
    rising_three, hs, cleared]
  by_cases h : 0 < inp.btn3_state ∧ s.btn3_was_pressed = false <;> simp [h]

theorem locked_btn0_trace_printk (st : Int) (s : Sys) :
    ∃ evs, (locked_btn0 st s).trace = s.trace ++ evs ∧
      ∀ e ∈ evs, ∃ m, e = Event.printk m := by
  rw [locked_btn0_eq]
  dsimp only
  split_ifs
  · exact ⟨_, rfl, by simp⟩
  · exact ⟨[], by simp, by simp⟩

theorem locked_btn1_trace_printk (st : Int) (s : Sys) :
    ∃ evs, (locked_btn1 st s).trace = s.trace ++ evs ∧
      ∀ e ∈ evs, ∃ m, e = Event.printk m := by
  rw [locked_btn1_eq]
  dsimp only
  split_ifs
  · exact ⟨_, rfl, by simp⟩
  · exact ⟨[], by simp, by simp⟩

theorem locked_btn2_trace_printk (st : Int) (s : Sys) :
    ∃ evs, (locked_btn2 st s).trace = s.trace ++ evs ∧
      ∀ e ∈ evs, ∃ m, e = Event.printk m := by
  rw [locked_btn2_eq]
  dsimp only
  split_ifs
  · exact ⟨_, rfl, by simp⟩
  · exact ⟨[], by simp, by simp⟩

theorem locked_digits_trace_printk (s : Sys) (inp : Inputs) :
    ∃ evs, (locked_btn2 inp.btn2_state (locked_btn1 inp.btn1_state
      (locked_btn0 inp.btn0_state s))).trace = s.trace ++ evs ∧
      ∀ e ∈ evs, ∃ m, e = Event.printk m := by
  obtain ⟨e0, h0, p0⟩ := locked_btn0_trace_printk inp.btn0_state s
  obtain ⟨e1, h1, p1⟩ := locked_btn1_trace_printk inp.btn1_state
    (locked_btn0 inp.btn0_state s)
  obtain ⟨e2, h2, p2⟩ := locked_btn2_trace_printk inp.btn2_state
    (locked_btn1 inp.btn1_state (locked_btn0 inp.btn0_state s))
  refine ⟨e0 ++ (e1 ++ e2), by rw [h2, h1, h0]; simp, ?_⟩
  intro e he
  simp only [List.mem_append] at he
  rcases he with he | he | he
  · exact p0 e he
  · exact p1 e he
  · exact p2 e he

theorem locked_no_confirm_trace (s : Sys) (inp : Inputs)
    (hs : s.current_state = STATE_LOCKED) (h3 : ¬ rising s inp 3) :
    (loop_body s inp).trace
      = (locked_btn2 inp.btn2_state (locked_btn1 inp.btn1_state
          (locked_btn0 inp.btn0_state s))).trace := by
  rw [rising_three] at h3
  rw [loop_body_locked s inp hs, locked_btn3_eq]
  have hflag : (locked_btn2 inp.btn2_state (locked_btn1 inp.btn1_state
      (locked_btn0 inp.btn0_state s))).btn3_was_pressed
        = s.btn3_was_pressed := by
    simp only [locked_btn0_eq, locked_btn1_eq, locked_btn2_eq]
  simp only [hflag, if_neg h3]

/-- C11: a tick in `STATE_LOCKED` in which button 3 has no rising edge ends in
`STATE_LOCKED` whatever buttons 0, 1 and 2 do, and the indicator is not
written: the tick makes no `gpio_pin_set_dt` call (its output calls are
`printk` calls only) and the level of `led0` is unchanged. -/
theorem locked_no_confirm_stays_locked (s : Sys) (inp : Inputs)
    (hs : s.current_state = STATE_LOCKED) (h3 : ¬ rising s inp 3) :
    (loop_body s inp).current_state = STATE_LOCKED ∧
    (∀ v, Event.gpio_pin_set_led0 v ∉ tick_events s inp) ∧
    (loop_body s inp).led0 = s.led0 := by
  obtain ⟨hc, hl, _⟩ := locked_tick_state s inp hs
  obtain ⟨evs, hevs, hp⟩ := locked_digits_trace_printk s inp
  have ht := locked_no_confirm_trace s inp hs h3
  rw [hevs] at ht
  refine ⟨by rw [hc, if_neg h3], ?_, by rw [hl, if_neg h3]⟩
  intro v hv
  rw [tick_events_of_trace s inp evs ht] at hv
  obtain ⟨m, hm⟩ := hp _ hv
  cases hm

theorem locked_no_confirm_stays_locked_witness :
    (startup.current_state = STATE_LOCKED ∧
      ¬ rising startup (levels true true true false) 3) ∧
    (loop_body startup (levels true true true false)).current_state
      = STATE_LOCKED ∧
    (∀ v, Event.gpio_pin_set_led0 v
      ∉ tick_events startup (levels true true true false)) ∧
    (loop_body startup (levels true true true false)).led0 = startup.led0 :=
  ⟨by decide,
   locked_no_confirm_stays_locked startup (levels true true true false)
    (by decide) (by decide)⟩


/-! ## State changes, the indicator and the buffer while waiting -/

theorem loop_body_changes_clears (s : Sys) (inp : Inputs)
    (h : (loop_body s inp).current_state ≠ s.current_state) :
    cleared (loop_body s inp) := by
  cases hs : s.current_state with
  | STATE_LOCKED =>
    obtain ⟨hc, _, hcl⟩ := locked_tick_state s inp hs
    by_cases h3 : rising s inp 3
    · exact hcl h3
    · rw [hc, if_neg h3, hs] at h
      exact absurd rfl h
  | STATE_WAITING =>
    obtain ⟨hc, _, hi, hb, _⟩ := waiting_tick_fields s inp hs
    by_cases hr : ∃ b, rising s inp b
    · refine ⟨?_, ?_⟩
      · rw [hi, if_pos hr]
      · intro i
        rw [hb, if_pos hr]
    · rw [hc, if_neg hr, hs] at h
      exact absurd rfl h

theorem loop_body_led_iff_locked (s : Sys) (inp : Inputs)
    (h : s.led0 = true ↔ s.current_state = STATE_LOCKED) :
    (loop_body s inp).led0 = true ↔
      (loop_body s inp).current_state = STATE_LOCKED := by
  cases hs : s.current_state with
  | STATE_LOCKED =>
    obtain ⟨hc, hl, _⟩ := locked_tick_state s inp hs
    rw [hc, hl]
    by_cases h3 : rising s inp 3
    · simp [h3]
    · simp [h3, h.mpr hs]
  | STATE_WAITING =>
    obtain ⟨hc, hl, _, _, _⟩ := waiting_tick_fields s inp hs
    rw [hc, hl]
    by_cases hr : ∃ b, rising s inp b
    · simp [hr]
    · have hled : s.led0 ≠ true := fun hl0 => by
        have := h.mp hl0
        rw [hs] at this
        cases this
      simp [hr, hled]

theorem loop_body_waiting_cleared (s : Sys) (inp : Inputs)
    (h : s.current_state = STATE_WAITING → cleared s) :
    (loop_body s inp).current_state = STATE_WAITING →
      cleared (loop_body s inp) := by
  intro hw
  cases hs : s.current_state with
  | STATE_LOCKED =>
    obtain ⟨hc, _, hcl⟩ := locked_tick_state s inp hs
    by_cases h3 : rising s inp 3
    · exact hcl h3
    · rw [hc, if_neg h3] at hw
      cases hw
  | STATE_WAITING =>
    obtain ⟨hc, _, hi, hb, _⟩ := waiting_tick_fields s inp hs
    by_cases hr : ∃ b, rising s inp b
    · rw [hc, if_pos hr] at hw
      cases hw
    · obtain ⟨h1, h2⟩ := h hs
      refine ⟨?_, ?_⟩
      · rw [hi, if_neg hr, h1]
      · intro i
        rw [hb, if_neg hr, h2 i]

theorem waiting_tick_keeps_cleared (s : Sys) (inp : Inputs)
    (hs : s.current_state = STATE_WAITING) (hcl : cleared s) :
    cleared (loop_body s inp) := by
  obtain ⟨_, _, hi, hb, _⟩ := waiting_tick_fields s inp hs
  obtain ⟨h1, h2⟩ := hcl
  by_cases hr : ∃ b, rising s inp b
  · refine ⟨?_, ?_⟩
    · rw [hi, if_pos hr]
    · intro i
      rw [hb, if_pos hr]
  · refine ⟨?_, ?_⟩
    · rw [hi, if_neg hr, h1]
    · intro i
      rw [hb, if_neg hr, h2 i]

/-- C13: every tick that changes `current_state` (from `STATE_LOCKED` to
`STATE_WAITING` or back) ends with the buffer cleared, index 0 and all four
slots `0xFF`; the startup state has the buffer cleared as well. -/
theorem state_change_clears_buffer (s : Sys) (inp : Inputs)
    (h : (loop_body s inp).current_state ≠ s.current_state) :
    ((loop_body s inp).password_index = 0 ∧
      ∀ i, (loop_body s inp).password_buffer i = 0xFF) ∧
    (startup.password_index = 0 ∧ ∀ i, startup.password_buffer i = 0xFF) :=
  ⟨loop_body_changes_clears s inp h, by decide⟩

theorem state_change_clears_buffer_witness :
    (loop_body (run startup four_presses_btn0) (press 3)).current_state
      ≠ (run startup four_presses_btn0).current_state ∧
    ((loop_body (run startup four_presses_btn0) (press 3)).password_index
        = 0 ∧
      ∀ i, (loop_body (run startup four_presses_btn0)
        (press 3)).password_buffer i = 0xFF) ∧
    (startup.password_index = 0 ∧ ∀ i, startup.password_buffer i = 0xFF) :=
  ⟨by decide,
   state_change_clears_buffer (run startup four_presses_btn0) (press 3)
    (by decide)⟩

/-- C16: in every state reachable from startup the indicator is on if and
only if `current_state` is `STATE_LOCKED`. -/
theorem reachable_led_iff_locked (s : Sys) (h : Reachable s) :
    s.led0 = true ↔ s.current_state = STATE_LOCKED := by
  induction h with
  | init => decide
  | step s inp _ ih => exact loop_body_led_iff_locked s inp ih

theorem reachable_led_iff_locked_witness :
    Reachable (loop_body startup (press 3)) ∧
    ((loop_body startup (press 3)).led0 = true ↔
      (loop_body startup (press 3)).current_state = STATE_LOCKED) :=
  ⟨.step _ _ .init, reachable_led_iff_locked _ (.step _ _ .init)⟩

/-- C18: in every state reachable from startup, if `current_state` is
`STATE_WAITING` then the buffer is empty (index 0, all slots `0xFF`), and it
is still empty after one more tick with any readings: no digit is entered
while waiting. -/
theorem reachable_waiting_buffer_empty (s : Sys) (h : Reachable s)
    (hw : s.current_state = STATE_WAITING) :
    (s.password_index = 0 ∧ ∀ i, s.password_buffer i = 0xFF) ∧
    ∀ inp, (loop_body s inp).password_index = 0 ∧
      ∀ i, (loop_body s inp).password_buffer i = 0xFF := by
  have hinv : ∀ t, Reachable t → t.current_state = STATE_WAITING → cleared t := by
    intro t ht
    induction ht with
    | init => decide
    | step t inp _ ih => exact loop_body_waiting_cleared t inp ih
  exact ⟨hinv s h hw, fun inp => waiting_tick_keeps_cleared s inp hw (hinv s h hw)⟩

theorem reachable_waiting_buffer_empty_witness :
    (Reachable (loop_body startup (press 3)) ∧
      (loop_body startup (press 3)).current_state = STATE_WAITING) ∧
    ((loop_body startup (press 3)).password_index = 0 ∧
      ∀ i, (loop_body startup (press 3)).password_buffer i = 0xFF) ∧
    ∀ inp, (loop_body (loop_body startup (press 3)) inp).password_index = 0 ∧
      ∀ i, (loop_body (loop_body startup (press 3)) inp).password_buffer i
        = 0xFF :=
  ⟨⟨.step _ _ .init, by decide⟩,
   reachable_waiting_buffer_empty _ (.step _ _ .init) (by decide)⟩

/-! ## Shape of the buffer -/

theorem locked_btn0_digits_then_empty (st : Int) (s : Sys)
    (h : digits_then_empty s) : digits_then_empty (locked_btn0 st s) := by
  rw [locked_btn0_eq]
  unfold digits_then_empty at h ⊢
  dsimp only
  split_ifs with hc
  · obtain ⟨_, _, hk⟩ := hc
    have hk4 : s.password_index < 4 := hk
    have hm : (s.password_index + 1) % 256 = s.password_index + 1 := by
      omega
    rw [hm]
    intro i
    by_cases hi : i = ⟨s.password_index, hk⟩
    · subst hi
      simp
    · have hne : i.val ≠ s.password_index := fun hv => hi (Fin.ext hv)
      rw [Function.update_noteq hi]
      refine ⟨fun hlt => (h i).1 (by omega), fun hle => (h i).2 (by omega)⟩
  · exact h

theorem locked_btn1_digits_then_empty (st : Int) (s : Sys)
    (h : digits_then_empty s) : digits_then_empty (locked_btn1 st s) := by
  rw [locked_btn1_eq]
  unfold digits_then_empty at h ⊢
  dsimp only
  split_ifs with hc
  · obtain ⟨_, _, hk⟩ := hc
    have hk4 : s.password_index < 4 := hk
    have hm : (s.password_index + 1) % 256 = s.password_index + 1 := by
      omega
    rw [hm]
    intro i
    by_cases hi : i = ⟨s.password_index, hk⟩
    · subst hi
      simp
    · have hne : i.val ≠ s.password_index := fun hv => hi (Fin.ext hv)
      rw [Function.update_noteq hi]
      refine ⟨fun hlt => (h i).1 (by omega), fun hle => (h i).2 (by omega)⟩
  · exact h

theorem locked_btn2_digits_then_empty (st : Int) (s : Sys)
    (h : digits_then_empty s) : digits_then_empty (locked_btn2 st s) := by
  rw [locked_btn2_eq]
  unfold digits_then_empty at h ⊢
  dsimp only
  split_ifs with hc
  · obtain ⟨_, _, hk⟩ := hc
    have hk4 : s.password_index < 4 := hk
    have hm : (s.password_index + 1) % 256 = s.password_index + 1 := by
      omega
    rw [hm]
    intro i
    by_cases hi : i = ⟨s.password_index, hk⟩
    · subst hi
      simp
    · have hne : i.val ≠ s.password_index := fun hv => hi (Fin.ext hv)
      rw [Function.update_noteq hi]
      refine ⟨fun hlt => (h i).1 (by omega), fun hle => (h i).2 (by omega)⟩
  · exact h

theorem locked_btn3_digits_then_empty (st : Int) (s : Sys)
    (h : digits_then_empty s) : digits_then_empty (locked_btn3 st s) := by
  rw [locked_btn3_eq]
  unfold digits_then_empty at h ⊢
  dsimp only
  split_ifs
  · intro i
    simp
  · exact h

theorem waiting_btn0_digits_then_empty (st : Int) (s : Sys)
    (h : digits_then_empty s) : digits_then_empty (waiting_btn0 st s) := by
  rw [waiting_btn0_eq]
  unfold digits_then_empty at h ⊢
  dsimp only
  split_ifs
  · intro i
    simp
  · exact h

theorem waiting_btn1_digits_then_empty (st : Int) (s : Sys)
    (h : digits_then_empty s) : digits_then_empty (waiting_btn1 st s) := by
  rw [waiting_btn1_eq]
  unfold digits_then_empty at h ⊢
  dsimp only
  split_ifs
  · intro i
    simp
  · exact h

theorem waiting_btn2_digits_then_empty (st : Int) (s : Sys)
    (h : digits_then_empty s) : digits_then_empty (waiting_btn2 st s) := by
  rw [waiting_btn2_eq]
  unfold digits_then_empty at h ⊢
  dsimp only
  split_ifs
  · intro i
    simp
  · exact h

theorem waiting_btn3_digits_then_empty (st : Int) (s : Sys)
    (h : digits_then_empty s) : digits_then_empty (waiting_btn3 st s) := by
  rw [waiting_btn3_eq]
  unfold digits_then_empty at h ⊢
  dsimp only
  split_ifs
  · intro i
    simp
  · exact h

theorem loop_body_digits_then_empty (s : Sys) (inp : Inputs)
    (h : digits_then_empty s) : digits_then_empty (loop_body s inp) := by
  unfold loop_body
  split_ifs
  · exact locked_btn3_digits_then_empty _ _ (locked_btn2_digits_then_empty _ _
      (locked_btn1_digits_then_empty _ _
        (locked_btn0_digits_then_empty _ _ h)))
  · exact waiting_btn3_digits_then_empty _ _
      (waiting_btn2_digits_then_empty _ _
        (waiting_btn1_digits_then_empty _ _
          (waiting_btn0_digits_then_empty _ _ h)))
  · exact h

theorem startup_digits_then_empty : digits_then_empty startup := by
  intro i
  have hb : startup.password_buffer i = 0xFF := by
    unfold startup
    exact reset_password_entry_buffer _ i
  have hi : startup.password_index = 0 := rfl
  rw [hi, hb]
  simp

/-- C17: in every state reachable from startup, every buffer slot below
`password_index` holds a digit in {0, 1, 2} and every slot at or above
`password_index` holds the empty marker `0xFF`. -/
theorem reachable_buffer_shape (s : Sys) (h : Reachable s) :
    ∀ i : Fin PASSWORD_LENGTH,
      (i.val < s.password_index →
        s.password_buffer i = 0 ∨ s.password_buffer i = 1 ∨
          s.password_buffer i = 2) ∧
      (s.password_index ≤ i.val → s.password_buffer i = 0xFF) := by
  have hinv : digits_then_empty s := by
    induction h with
    | init => exact startup_digits_then_empty
    | step s inp _ ih => exact loop_body_digits_then_empty s inp ih
  exact hinv

theorem reachable_buffer_shape_witness :
    Reachable (loop_body startup (press 2)) ∧
    ∀ i : Fin PASSWORD_LENGTH,
      (i.val < (loop_body startup (press 2)).password_index →
        (loop_body startup (press 2)).password_buffer i = 0 ∨
        (loop_body startup (press 2)).password_buffer i = 1 ∨
        (loop_body startup (press 2)).password_buffer i = 2) ∧
      ((loop_body startup (press 2)).password_index ≤ i.val →
        (loop_body startup (press 2)).password_buffer i = 0xFF) :=
  ⟨.step _ _ .init, reachable_buffer_shape _ (.step _ _ .init)⟩

/-! ## Held and repeated presses -/

theorem run_replicate_succ (s : Sys) (inp : Inputs) (k : Nat) :
    run s (List.replicate (k + 1) inp)
      = loop_body (run s (List.replicate k inp)) inp := by
  simp [run, List.replicate_succ']

theorem release_clears_flag (s : Sys) (inp : Inputs) (b : Fin 4)
    (h : btn_state inp b = 0) : was_pressed (loop_body s inp) b = false := by
  cases hs : s.current_state with
  | STATE_LOCKED =>
    rw [loop_body_locked s inp hs]
    simp only [locked_btn0_eq, locked_btn1_eq, locked_btn2_eq, locked_btn3_eq]
    fin_cases b <;> simp [btn_state] at h <;> simp [was_pressed, h]
  | STATE_WAITING =>
    rw [loop_body_waiting s inp hs]
    simp only [waiting_btn0_eq, waiting_btn1_eq, waiting_btn2_eq,
      waiting_btn3_eq]
    fin_cases b <;> simp [btn_state] at h <;> simp [was_pressed, h]

theorem hold_btn3_first (s : Sys) (hf : s.btn3_was_pressed = false) :
    (loop_body s (press 3)).current_state ≠ s.current_state ∧
    (loop_body s (press 3)).btn3_was_pressed = true := by
  cases hs : s.current_state with
  | STATE_LOCKED =>
    rw [loop_body_locked s _ hs]
    simp only [locked_btn0_eq, locked_btn1_eq, locked_btn2_eq, locked_btn3_eq]
    simp [press, levels, level_int, hf]
  | STATE_WAITING =>
    rw [loop_body_waiting s _ hs]
    simp only [waiting_btn0_eq, waiting_btn1_eq, waiting_btn2_eq,
      waiting_btn3_eq]
    simp [press, levels, level_int, hf]

theorem hold_btn3_step (s : Sys) (hf : s.btn3_was_pressed = true) :
    (loop_body s (press 3)).current_state = s.current_state ∧
    (loop_body s (press 3)).btn3_was_pressed = true := by
  cases hs : s.current_state with
  | STATE_LOCKED =>
    rw [loop_body_locked s _ hs]
    simp only [locked_btn0_eq, locked_btn1_eq, locked_btn2_eq, locked_btn3_eq]
    simp [press, levels, level_int, hf, hs]
  | STATE_WAITING =>
    rw [loop_body_waiting s _ hs]
    simp only [waiting_btn0_eq, waiting_btn1_eq, waiting_btn2_eq,
      waiting_btn3_eq]
    simp [press, levels, level_int, hf, hs]

theorem hold_btn3_run (s : Sys) (hf : s.btn3_was_pressed = false) (k : Nat) :
    (run s (List.replicate (k + 1) (press 3))).current_state
      = (loop_body s (press 3)).current_state ∧
    (run s (List.replicate (k + 1) (press 3))).btn3_was_pressed = true := by
  induction k with
  | zero => exact ⟨rfl, (hold_btn3_first s hf).2⟩
  | succ k ih =>
    rw [run_replicate_succ]
    obtain ⟨h1, h2⟩ := hold_btn3_step _ ih.2
    exact ⟨h1.trans ih.1, h2⟩

theorem hold_digit_first (s : Sys) (c : Fin 4) (hc : c ≠ 3)
    (hs : s.current_state = STATE_LOCKED) (hk : s.password_index < 4)
    (hf : was_pressed s c = false) :
    (loop_body s (press c)).current_state = STATE_LOCKED ∧
    was_pressed (loop_body s (press c)) c = true ∧
    (loop_body s (press c)).password_buffer
      = Function.update s.password_buffer ⟨s.password_index, hk⟩ c.val ∧
    (loop_body s (press c)).password_index = s.password_index + 1 := by
  have hm : (s.password_index + 1) % 256 = s.password_index + 1 := by omega
  rw [loop_body_locked s _ hs]
  simp only [locked_btn0_eq, locked_btn1_eq, locked_btn2_eq, locked_btn3_eq]
  fin_cases c
  · simp [was_pressed] at hf
    simp [press, levels, level_int, was_pressed, hf, hs, hk, hm]
  · simp [was_pressed] at hf
    simp [press, levels, level_int, was_pressed, hf, hs, hk, hm]
  · simp [was_pressed] at hf
    simp [press, levels, level_int, was_pressed, hf, hs, hk, hm]
  · exact absurd rfl hc

theorem hold_digit_step (s : Sys) (c : Fin 4) (hc : c ≠ 3)
    (hs : s.current_state = STATE_LOCKED)
    (hf : was_pressed s c = true) :
    (loop_body s (press c)).current_state = STATE_LOCKED ∧
    was_pressed (loop_body s (press c)) c = true ∧
    (loop_body s (press c)).password_buffer = s.password_buffer ∧
    (loop_body s (press c)).password_index = s.password_index := by
  rw [loop_body_locked s _ hs]
  simp only [locked_btn0_eq, locked_btn1_eq, locked_btn2_eq, locked_btn3_eq]
  fin_cases c
  · simp [was_pressed] at hf
    simp [press, levels, level_int, was_pressed, hf, hs]
  · simp [was_pressed] at hf
    simp [press, levels, level_int, was_pressed, hf, hs]
  · simp [was_pressed] at hf
    simp [press, levels, level_int, was_pressed, hf, hs]
  · exact absurd rfl hc

theorem hold_digit_run (s : Sys) (c : Fin 4) (hc : c ≠ 3)
    (hs : s.current_state = STATE_LOCKED) (hk : s.password_index < 4)
    (hf : was_pressed s c = false) (k : Nat) :
    (run s (List.replicate (k + 1) (press c))).current_state
      = STATE_LOCKED ∧
    was_pressed (run s (List.replicate (k + 1) (press c))) c = true ∧
    (run s (List.replicate (k + 1) (press c))).password_buffer
      = Function.update s.password_buffer ⟨s.password_index, hk⟩ c.val ∧
    (run s (List.replicate (k + 1) (press c))).password_index
      = s.password_index + 1 := by
  induction k with
  | zero => exact hold_digit_first s c hc hs hk hf
  | succ k ih =>
    rw [run_replicate_succ]
    obtain ⟨i1, i2, i3, i4⟩ := ih
    obtain ⟨h1, h2, h3, h4⟩ := hold_digit_step _ c hc i1 i2
    exact ⟨h1, h2, h3.trans i3, h4.trans i4⟩

theorem castSucc_ne_three (b : Fin 3) : b.castSucc ≠ (3 : Fin 4) := by
  fin_cases b <;> decide

/-- C12 (scenario D generalised): for every digit button `b` in {0, 1, 2},
every `N ≥ 1` and every state in `STATE_LOCKED` with index `k < 4` and the
flag of `b` false, `N` consecutive ticks with `b` pressed and the other
buttons released append exactly one digit: afterwards the index is `k + 1`,
slot `k` holds `b` and every other slot is as before.  From startup, button
0 held for five ticks gives index 1 with digit 0 in slot 0. -/
theorem held_digit_appends_once (s : Sys) (b : Fin 3) (N : Nat)
    (hN : 1 ≤ N) (hs : s.current_state = STATE_LOCKED)
    (hk : s.password_index < 4) (hf : was_pressed s b.castSucc = false) :
    ((run s (List.replicate N (press b.castSucc))).password_index
        = s.password_index + 1 ∧
      (run s (List.replicate N (press b.castSucc))).password_buffer
          ⟨s.password_index, hk⟩ = b.val ∧
      ∀ j, j ≠ ⟨s.password_index, hk⟩ →
        (run s (List.replicate N (press b.castSucc))).password_buffer j
          = s.password_buffer j) ∧
    ((run startup (List.replicate 5 (press 0))).password_index = 1 ∧
      (run startup (List.replicate 5 (press 0))).password_buffer 0 = 0) := by
  obtain ⟨k, rfl⟩ : ∃ k, N = k + 1 := ⟨N - 1, by omega⟩
  obtain ⟨_, _, hb, hi⟩ :=
    hold_digit_run s b.castSucc (castSucc_ne_three b) hs hk hf k
  refine ⟨⟨hi, ?_, ?_⟩, by decide⟩
  · rw [hb]
    simp
  · intro j hj
    rw [hb, Function.update_noteq hj]

theorem held_digit_appends_once_witness :
    (1 ≤ 5 ∧ startup.current_state = STATE_LOCKED ∧
      startup.password_index < 4 ∧ was_pressed startup 0 = false) ∧
    ((run startup (List.replicate 5 (press 0))).password_index = 0 + 1 ∧
      (run startup (List.replicate 5 (press 0))).password_buffer
          ⟨0, by decide⟩ = 0 ∧
      ∀ j, j ≠ ⟨0, by decide⟩ →
        (run startup (List.replicate 5 (press 0))).password_buffer j
          = startup.password_buffer j) ∧
    ((run startup (List.replicate 5 (press 0))).password_index = 1 ∧
      (run startup (List.replicate 5 (press 0))).password_buffer 0 = 0) :=
  ⟨by decide,
   held_digit_appends_once startup 0 5 (by decide) (by decide) (by decide)
    (by decide)⟩

/-- C14: for every button `b`, every state and all readings of the other
buttons, four consecutive ticks in which the level of `b` is false, true,
false, true give a press event of `b` (level true while the stored flag is
false) on each of the two true ticks and none on the false ticks: a tick
with the level false leaves the flag of `b` false. -/
theorem press_release_press_two_events (s : Sys) (b : Fin 4)
    (i1 i2 i3 i4 : Inputs)
    (h1 : btn_state i1 b = 0) (h2 : 0 < btn_state i2 b)
    (h3 : btn_state i3 b = 0) (h4 : 0 < btn_state i4 b) :
    ¬ rising s i1 b ∧
    was_pressed (run s [i1]) b = false ∧
    rising (run s [i1]) i2 b ∧
    ¬ rising (run s [i1, i2]) i3 b ∧
    was_pressed (run s [i1, i2, i3]) b = false ∧
    rising (run s [i1, i2, i3]) i4 b := by
  have r1 : was_pressed (run s [i1]) b = false := release_clears_flag s i1 b h1
  have r3 : was_pressed (run s [i1, i2, i3]) b = false :=
    release_clears_flag (run s [i1, i2]) i3 b h3
  refine ⟨?_, r1, ⟨h2, r1⟩, ?_, r3, ⟨h4, r3⟩⟩
  · intro h
    have := h.1
    omega
  · intro h
    have := h.1
    omega

theorem press_release_press_two_events_witness :
    (btn_state (levels false true false false) 2 = 0 ∧
      0 < btn_state (levels false true true false) 2 ∧
      btn_state (levels false false false true) 2 = 0 ∧
      0 < btn_state (levels false false true false) 2) ∧
    ¬ rising startup (levels false true false false) 2 ∧
    was_pressed (run startup [levels false true false false]) 2 = false ∧
    rising (run startup [levels false true false false])
      (levels false true true false) 2 ∧
    ¬ rising (run startup [levels false true false false,
        levels false true true false]) (levels false false false true) 2 ∧
    was_pressed (run startup [levels false true false false,
        levels false true true false, levels false false false true]) 2
      = false ∧
    rising (run startup [levels false true false false,
        levels false true true false, levels false false false true])
      (levels false false true false) 2 :=
  ⟨by decide,
   press_release_press_two_events startup 2 (levels false true false false)
    (levels false true true false) (levels false false false true)
    (levels false false true false) (by decide) (by decide) (by decide)
    (by decide)⟩

/-- C19: for every `N ≥ 1` and every state (locked or waiting) in which the
flag of button 3 is false, holding button 3 pressed for `N` consecutive
ticks with buttons 0-2 released changes `current_state` on the first tick
and on none of the ticks `2 .. N`. -/
theorem held_btn3_changes_state_once (s : Sys) (N : Nat) (hN : 1 ≤ N)
    (hf : was_pressed s 3 = false) :
    (run s (List.replicate 1 (press 3))).current_state ≠ s.current_state ∧
    (∀ k, 1 ≤ k → k < N →
      (run s (List.replicate (k + 1) (press 3))).current_state
        = (run s (List.replicate k (press 3))).current_state) ∧
    (run s (List.replicate N (press 3))).current_state
      = (run s (List.replicate 1 (press 3))).current_state := by
  have hf3 : s.btn3_was_pressed = false := hf
  have key : ∀ k, 1 ≤ k →
      (run s (List.replicate k (press 3))).current_state
        = (loop_body s (press 3)).current_state := by
    intro k hk
    obtain ⟨j, rfl⟩ : ∃ j, k = j + 1 := ⟨k - 1, by omega⟩
    exact (hold_btn3_run s hf3 j).1
  refine ⟨(hold_btn3_first s hf3).1, ?_, ?_⟩
  · intro k hk _
    rw [key (k + 1) (by omega), key k hk]
  · rw [key N hN]
    rfl

theorem held_btn3_changes_state_once_witness :
    (1 ≤ 3 ∧ was_pressed waiting_example 3 = false) ∧
    (run waiting_example (List.replicate 1 (press 3))).current_state
      ≠ waiting_example.current_state ∧
    (∀ k, 1 ≤ k → k < 3 →
      (run waiting_example (List.replicate (k + 1) (press 3))).current_state
        = (run waiting_example
            (List.replicate k (press 3))).current_state) ∧
    (run waiting_example (List.replicate 3 (press 3))).current_state
      = (run waiting_example (List.replicate 1 (press 3))).current_state :=
  ⟨by decide,
   held_btn3_changes_state_once waiting_example 3 (by decide) (by decide)⟩

/-! ## Order of the buttons within a locked tick -/

theorem locked_btn0_append (st : Int) (s : Sys) :
    ((locked_btn0 st s).password_buffer, (locked_btn0 st s).password_index)
      = if 0 < st ∧ s.btn0_was_pressed = false then
          append_digit (s.password_buffer, s.password_index) 0
        else (s.password_buffer, s.password_index) := by
  rw [locked_btn0_eq]
  unfold append_digit
  dsimp only
  by_cases hr : 0 < st ∧ s.btn0_was_pressed = false
  · by_cases hk : s.password_index < PASSWORD_LENGTH
    · have hm : (s.password_index + 1) % 256 = s.password_index + 1 := by
        have hk4 : s.password_index < 4 := hk
        omega
      simp [hr, hk, hm]
    · simp [hr, hk]
  · rcases not_and_or.mp hr with h | h <;> simp [h]

theorem locked_btn1_append (st : Int) (s : Sys) :
    ((locked_btn1 st s).password_buffer, (locked_btn1 st s).password_index)
      = if 0 < st ∧ s.btn1_was_pressed = false then
          append_digit (s.password_buffer, s.password_index) 1
        else (s.password_buffer, s.password_index) := by
  rw [locked_btn1_eq]
  unfold append_digit
  dsimp only
  by_cases hr : 0 < st ∧ s.btn1_was_pressed = false
  · by_cases hk : s.password_index < PASSWORD_LENGTH
    · have hm : (s.password_index + 1) % 256 = s.password_index + 1 := by
        have hk4 : s.password_index < 4 := hk
        omega
      simp [hr, hk, hm]
    · simp [hr, hk]
  · rcases not_and_or.mp hr with h | h <;> simp [h]

theorem locked_btn2_append (st : Int) (s : Sys) :
    ((locked_btn2 st s).password_buffer, (locked_btn2 st s).password_index)
      = if 0 < st ∧ s.btn2_was_pressed = false then
          append_digit (s.password_buffer, s.password_index) 2
        else (s.password_buffer, s.password_index) := by
  rw [locked_btn2_eq]
  unfold append_digit
  dsimp only
  by_cases hr : 0 < st ∧ s.btn2_was_pressed = false
  · by_cases hk : s.password_index < PASSWORD_LENGTH
    · have hm : (s.password_index + 1) % 256 = s.password_index + 1 := by
        have hk4 : s.password_index < 4 := hk
        omega
      simp [hr, hk, hm]
    · simp [hr, hk]
  · rcases not_and_or.mp hr with h | h <;> simp [h]

theorem finRange_three : List.finRange 3 = [0, 1, 2] := by
  decide

theorem locked_digits_append (s : Sys) (inp : Inputs) :
    ((locked_btn2 inp.btn2_state (locked_btn1 inp.btn1_state
        (locked_btn0 inp.btn0_state s))).password_buffer,
     (locked_btn2 inp.btn2_state (locked_btn1 inp.btn1_state
        (locked_btn0 inp.btn0_state s))).password_index)
      = append_digits (s.password_buffer, s.password_index)
          (rising_digits s inp) := by
  have f1 : (locked_btn0 inp.btn0_state s).btn1_was_pressed
      = s.btn1_was_pressed := by
    simp only [locked_btn0_eq]
  have f2 : (locked_btn1 inp.btn1_state
      (locked_btn0 inp.btn0_state s)).btn2_was_pressed
        = s.btn2_was_pressed := by
    simp only [locked_btn0_eq, locked_btn1_eq]
  rw [locked_btn2_append, locked_btn1_append, locked_btn0_append, f1, f2]
  have e0 : rising s inp (Fin.castSucc (0 : Fin 3))
      ↔ 0 < inp.btn0_state ∧ s.btn0_was_pressed = false := Iff.rfl
  have e1 : rising s inp (Fin.castSucc (1 : Fin 3))
      ↔ 0 < inp.btn1_state ∧ s.btn1_was_pressed = false := Iff.rfl
  have e2 : rising s inp (Fin.castSucc (2 : Fin 3))
      ↔ 0 < inp.btn2_state ∧ s.btn2_was_pressed = false := Iff.rfl
  unfold rising_digits append_digits
  rw [finRange_three]
  simp only [List.filter, e0, e1, e2]
  by_cases h0 : 0 < inp.btn0_state ∧ s.btn0_was_pressed = false <;>
  by_cases h1 : 0 < inp.btn1_state ∧ s.btn1_was_pressed = false <;>
  by_cases h2 : 0 < inp.btn2_state ∧ s.btn2_was_pressed = false <;>
  simp [h0, h1, h2]

theorem check_password_congr (a b : Sys)
    (h1 : a.password_buffer = b.password_buffer)
    (h2 : a.password_index = b.password_index) :
    check_password a = check_password b := by
  unfold check_password
  rw [h1, h2]

theorem locked_btn3_frame_flag (s : Sys) (inp : Inputs) :
    (locked_btn2 inp.btn2_state (locked_btn1 inp.btn1_state
      (locked_btn0 inp.btn0_state s))).btn3_was_pressed
        = s.btn3_was_pressed := by
  simp only [locked_btn0_eq, locked_btn1_eq, locked_btn2_eq]

theorem locked_confirm_trace (s : Sys) (inp : Inputs)
    (hs : s.current_state = STATE_LOCKED) (h3 : rising s inp 3) :
    ∃ evs, tick_events s inp = evs ++
      [Event.printk
        (if check_password (locked_btn2 inp.btn2_state
            (locked_btn1 inp.btn1_state (locked_btn0 inp.btn0_state s)))
          then Msg.correct else Msg.incorrect),
       Event.gpio_pin_set_led0 0] := by
  rw [rising_three] at h3
  obtain ⟨evs, hevs, _⟩ := locked_digits_trace_printk s inp
  refine ⟨evs, tick_events_of_trace s inp _ ?_⟩
  rw [loop_body_locked s inp hs, locked_btn3_eq]
  simp only [locked_btn3_frame_flag, h3, and_self, if_true, hevs,
    List.append_assoc]

theorem locked_no_confirm_buffer (s : Sys) (inp : Inputs)
    (hs : s.current_state = STATE_LOCKED) (h3 : ¬ rising s inp 3) :
    (loop_body s inp).password_buffer
      = (locked_btn2 inp.btn2_state (locked_btn1 inp.btn1_state
          (locked_btn0 inp.btn0_state s))).password_buffer ∧
    (loop_body s inp).password_index
      = (locked_btn2 inp.btn2_state (locked_btn1 inp.btn1_state
          (locked_btn0 inp.btn0_state s))).password_index := by
  rw [rising_three] at h3
  rw [loop_body_locked s inp hs, locked_btn3_eq]
  simp only [locked_btn3_frame_flag, if_neg h3, and_self]

/-- C15: within one tick in `STATE_LOCKED` the buttons are handled in the
order 0, 1, 2, 3.  The digits of the digit buttons with a rising edge are
appended in ascending button order, each one only while the index is below
4 (`append_digits` over `rising_digits`); without a rising edge on button 3
that is the buffer and index after the tick, and with one the outcome
message is that of `check_password` on the buffer and index that already
include those digits.  From buffer 0, 0, 0 with index 3, rising edges on
buttons 0 and 3 in the same tick print "Entered: BTN0" and then
"Correct!". -/
theorem locked_tick_button_order (s : Sys) (inp : Inputs)
    (hs : s.current_state = STATE_LOCKED) :
    (¬ rising s inp 3 →
      ((loop_body s inp).password_buffer, (loop_body s inp).password_index)
        = append_digits (s.password_buffer, s.password_index)
            (rising_digits s inp)) ∧
    (rising s inp 3 →
      ∃ evs, tick_events s inp = evs ++
        [Event.printk
          (if check_password
              { s with
                password_buffer :=
                  (append_digits (s.password_buffer, s.password_index)
                    (rising_digits s inp)).1,
                password_index :=
                  (append_digits (s.password_buffer, s.password_index)
                    (rising_digits s inp)).2 }
            then Msg.correct else Msg.incorrect),
         Event.gpio_pin_set_led0 0]) ∧
    ((run startup three_presses_btn0).password_index = 3 ∧
      (∀ i : Fin 3,
        (run startup three_presses_btn0).password_buffer i.castSucc = 0) ∧
      tick_events (run startup three_presses_btn0)
          (levels true false false true)
        = [Event.printk Msg.entered_btn0, Event.printk Msg.correct,
           Event.gpio_pin_set_led0 0]) := by
  have happ := locked_digits_append s inp
  refine ⟨?_, ?_, by decide⟩
  · intro h3
    obtain ⟨hb, hi⟩ := locked_no_confirm_buffer s inp hs h3
    rw [hb, hi, happ]
  · intro h3
    obtain ⟨evs, hevs⟩ := locked_confirm_trace s inp hs h3
    refine ⟨evs, ?_⟩
    rw [hevs]
    have hc := check_password_congr
      (locked_btn2 inp.btn2_state (locked_btn1 inp.btn1_state
        (locked_btn0 inp.btn0_state s)))
      { s with
        password_buffer :=
          (append_digits (s.password_buffer, s.password_index)
            (rising_digits s inp)).1,
        password_index :=
          (append_digits (s.password_buffer, s.password_index)
            (rising_digits s inp)).2 }
      (congrArg Prod.fst happ) (congrArg Prod.snd happ)
    rw [hc]

theorem locked_tick_button_order_witness :
    (run startup three_presses_btn0).current_state = STATE_LOCKED ∧
    (¬ rising (run startup three_presses_btn0)
        (levels true true false false) 3 →
      ((loop_body (run startup three_presses_btn0)
          (levels true true false false)).password_buffer,
        (loop_body (run startup three_presses_btn0)
          (levels true true false false)).password_index)
        = append_digits
            ((run startup three_presses_btn0).password_buffer,
              (run startup three_presses_btn0).password_index)
            (rising_digits (run startup three_presses_btn0)
              (levels true true false false))) ∧
    (rising (run startup three_presses_btn0)
        (levels true true false false) 3 →
      ∃ evs, tick_events (run startup three_presses_btn0)
          (levels true true false false) = evs ++
        [Event.printk
          (if check_password
              { run startup three_presses_btn0 with
                password_buffer :=
                  (append_digits
                    ((run startup three_presses_btn0).password_buffer,
                      (run startup three_presses_btn0).password_index)
                    (rising_digits (run startup three_presses_btn0)
                      (levels true true false false))).1,
                password_index :=
                  (append_digits
                    ((run startup three_presses_btn0).password_buffer,
                      (run startup three_presses_btn0).password_index)
                    (rising_digits (run startup three_presses_btn0)
                      (levels true true false false))).2 }
            then Msg.correct else Msg.incorrect),
         Event.gpio_pin_set_led0 0]) ∧
    ((run startup three_presses_btn0).password_index = 3 ∧
      (∀ i : Fin 3,
        (run startup three_presses_btn0).password_buffer i.castSucc = 0) ∧
      tick_events (run startup three_presses_btn0)
          (levels true false false true)
        = [Event.printk Msg.entered_btn0, Event.printk Msg.correct,
           Event.gpio_pin_set_led0 0]) :=
  ⟨by decide,
   locked_tick_button_order (run startup three_presses_btn0)
    (levels true true false false) (by decide)⟩

end EieNrf52840
